import Mathlib

/-!
Shallow embedding of the Dash CSV dashboard (`src/app.py`).

The app has three callbacks:
* `store_csv` (app.py:159): validates the uploaded file (extension check,
  CSV parse, emptiness check) and stores the parsed frame, or clears the
  store and surfaces an error;
* `update_kpis` (app.py:208): four KPI strings, the means of the first
  four numeric columns, formatted with two decimals, `"-"` beyond;
* `update_charts` (app.py:239): resolves the two dropdown selections
  against the numeric columns, then builds the five figures (histogram,
  pie, line, scatter, correlation heatmap).

Cells are modelled as numeric (over `ℚ`), text, or missing (NaN); a
pandas column is numeric dtype exactly when it holds no text cell.
Correlation values (real numbers of the form `cov / sqrt (ssx * ssy)`)
are represented canonically by their sign together with their square,
so Pearson coefficients stay computable over `ℚ`.
-/

/-- A cell of the parsed frame: a number, a text value, or missing (NaN). -/
inductive Cell
  | num (q : ℚ)
  | text (s : String)
  | missing
deriving DecidableEq, Repr

/-- The numeric content of a cell (`none` for text or missing). -/
def cellVal : Cell → Option ℚ
  | Cell.num q => some q
  | _ => none

/-- Is this cell a text cell? -/
def Cell.isText : Cell → Bool
  | Cell.text _ => true
  | _ => false

/-- A named column of cells. -/
structure Column where
  name : String
  cells : List Cell
deriving DecidableEq, Repr

/-- The parsed frame: an ordered list of named columns. -/
structure Table where
  cols : List Column
deriving DecidableEq, Repr

/-- Row count of the frame (length of the first column; parsing keeps all
columns the same length). -/
def Table.numRows (t : Table) : Nat :=
  match t.cols with
  | [] => 0
  | c :: _ => c.cells.length

/-- pandas `df.empty`: true when either axis has length zero. -/
def Table.isEmptyFrame (t : Table) : Bool :=
  t.cols.isEmpty || t.numRows == 0

/-- A column has numeric dtype after `read_csv` iff it contains no text
cell (blank cells become NaN, so an all-blank column is numeric float). -/
def isNumericCol (cells : List Cell) : Bool :=
  cells.all (fun c => !c.isText)

/-- `df.select_dtypes(include='number')`: the numeric columns, in
original order. -/
def numericColumns (t : Table) : List Column :=
  t.cols.filter (fun c => isNumericCol c.cells)

/-- Names of the numeric columns, in schema order. -/
def numericNames (t : Table) : List String :=
  (numericColumns t).map Column.name

/-- `df[name]`: the first column with the given name. -/
def findColumn (t : Table) (name : String) : Option Column :=
  t.cols.find? (fun c => c.name == name)

/-- The values of a named column as optional rationals (missing = NaN). -/
def colValues (t : Table) (name : String) : List (Option ℚ) :=
  (((findColumn t name).map Column.cells).getD []).map cellVal

/-- `Series.mean()` with NaN skipped: `none` when no valid value exists
(pandas returns NaN there). -/
def colMean (cells : List Cell) : Option ℚ :=
  let vs := cells.filterMap cellVal
  if vs.length = 0 then none else some (vs.sum / (vs.length : ℚ))

/-- Decimal digits of a natural number. -/
def natDigits (n : Nat) : List Char :=
  (Nat.toDigits 10 n)

/-- Python `f"{x:.2f}"` on an exact rational: round to hundredths and
print with two decimal digits. -/
def fmt2 (q : ℚ) : String :=
  let c : Int := Int.floor (q * 100 + 1 / 2)
  let sgn : List Char := if c < 0 then ['-'] else []
  let a := c.natAbs
  let frac := a % 100
  String.mk (sgn ++ natDigits (a / 100) ++ ['.'] ++
    (if frac < 10 then '0' :: natDigits frac else natDigits frac))

/-- One KPI card string: `f"{col} Avg: {mean:.2f}"`; a NaN mean prints
as `nan`. -/
def kpiEntry (c : Column) : String :=
  match colMean c.cells with
  | some m => c.name ++ " Avg: " ++ fmt2 m
  | none => c.name ++ " Avg: nan"

/-- `update_kpis` (app.py:208): four strings, the means of the first four
numeric columns, `"-"` elsewhere and when no data is stored. -/
def update_kpis (data : Option Table) : List String :=
  match data with
  | none => ["-", "-", "-", "-"]
  | some df =>
      (List.range 4).map (fun i =>
        match (numericColumns df).get? i with
        | some c => kpiEntry c
        | none => "-")

/-- Upload status message surfaced next to the upload control. -/
inductive UploadStatus
  | blank
  | success
  | errBadExt
  | errParse (msg : String)
  | errEmpty
deriving DecidableEq, Repr

/-- Is this status an error/warning alert (as opposed to blank/success)? -/
def UploadStatus.isError : UploadStatus → Bool
  | UploadStatus.errBadExt => true
  | UploadStatus.errParse _ => true
  | UploadStatus.errEmpty => true
  | _ => false

/-- Is the first list a prefix of the second (on characters)? -/
def isPrefixOfChars : List Char → List Char → Bool
  | [], _ => true
  | _ :: _, [] => false
  | a :: as, b :: bs => a == b && isPrefixOfChars as bs

/-- Substring test on character lists (Python `needle in hay`). -/
def containsChars (needle : List Char) : List Char → Bool
  | [] => isPrefixOfChars needle []
  | b :: bs => isPrefixOfChars needle (b :: bs) || containsChars needle bs

/-- ASCII lower-casing of one character (Python `str.lower` restricted to
the ASCII letters that can occur around `csv` in a filename). -/
def lowerChar (c : Char) : Char :=
  if 'A' ≤ c && c ≤ 'Z' then Char.ofNat (c.toNat + 32) else c

/-- Python `'csv' in filename.lower()`: the extension check of
`store_csv` (app.py:164). -/
def indicatesCSV (filename : String) : Bool :=
  containsChars ['c', 's', 'v'] (filename.toList.map lowerChar)

/-- Split a character list at every occurrence of the separator
(`String.splitOn` for a one-character separator). -/
def splitChars (sep : Char) : List Char → List (List Char)
  | [] => [[]]
  | c :: cs =>
      match splitChars sep cs with
      | [] => [[c]]
      | g :: gs => if c == sep then [] :: g :: gs else (c :: g) :: gs

/-- Digit string to a natural number (`none` when empty or non-digit). -/
def digitsVal (l : List Char) : Option Nat :=
  if l.isEmpty then none
  else
    l.foldl
      (fun acc c =>
        acc.bind (fun n => if c.isDigit then some (n * 10 + (c.toNat - 48)) else none))
      (some 0)

/-- Unsigned decimal literal parse (integer and optional fractional part). -/
def parseUnsigned (l : List Char) : Option ℚ :=
  match splitChars '.' l with
  | [ip] => (digitsVal ip).map (fun n => (n : ℚ))
  | [ip, fp] =>
      match digitsVal ip, digitsVal fp with
      | some n, some f => some ((n : ℚ) + (f : ℚ) / ((10 : ℚ) ^ fp.length))
      | some n, none => if fp.isEmpty then some ((n : ℚ)) else none
      | none, some f => if ip.isEmpty then some ((f : ℚ) / ((10 : ℚ) ^ fp.length)) else none
      | none, none => none
  | _ => none

/-- Decimal numeric literal parse (optional sign), the numeric-cell
recognition of `read_csv`. -/
def parseNum : List Char → Option ℚ
  | '-' :: rest => (parseUnsigned rest).map (fun q => -q)
  | l => parseUnsigned l

/-- Cell typing of `read_csv`: blank is NaN, else numeric parse, else text. -/
def parseCell (l : List Char) : Cell :=
  if l = [] then Cell.missing
  else
    match parseNum l with
    | some q => Cell.num q
    | none => Cell.text (String.mk l)

/-- `pd.read_csv` on the decoded text: first non-blank line is the header,
each further non-blank line a row; a row with more fields than the header
is a parse error, shorter rows are padded with NaN; an all-blank input is
a parse error. -/
def read_csv (s : String) : Except String Table :=
  let lines := (splitChars '\n' s.toList).filter (fun l => l ≠ [])
  match lines with
  | [] => Except.error "No columns to parse from file"
  | header :: dataLines =>
      let names := splitChars ',' header
      let k := names.length
      match dataLines.mapM (fun ln =>
          let fields := splitChars ',' ln
          if fields.length ≤ k then
            Except.ok (fields ++ List.replicate (k - fields.length) [])
          else Except.error "Error tokenizing data") with
      | Except.error e => Except.error e
      | Except.ok rows =>
          Except.ok ⟨(List.range k).map (fun j =>
            ⟨String.mk (names.getD j []), rows.map (fun r => parseCell (r.getD j []))⟩)⟩

/-- `store_csv` (app.py:159): no upload yet keeps the store clear; a
filename without `csv` is rejected before the contents are looked at; a
parse failure or an empty frame clears the store with an alert; otherwise
the parsed frame is stored. -/
def store_csv (contents : Option String) (filename : String) :
    Option Table × UploadStatus :=
  match contents with
  | none => (none, UploadStatus.blank)
  | some raw =>
      if !indicatesCSV filename then (none, UploadStatus.errBadExt)
      else
        match read_csv raw with
        | Except.error e => (none, UploadStatus.errParse e)
        | Except.ok df =>
            if df.isEmptyFrame then (none, UploadStatus.errEmpty)
            else (some df, UploadStatus.success)

/-- A Pearson coefficient `cov / sqrt (ssx * ssy)` represented canonically
by its sign and its square (`nan` where pandas produces NaN: no
observation, or zero variance in either column). -/
inductive CorrVal
  | nan
  | r (sign : Int) (sq : ℚ)
deriving DecidableEq, Repr

/-- Mean of a list of rationals. -/
def lmean (l : List ℚ) : ℚ := l.sum / (l.length : ℚ)

/-- Sum of squared deviations from the mean. -/
def ssq (l : List ℚ) : ℚ := (l.map (fun a => (a - lmean l) ^ 2)).sum

/-- Sum of products of deviations (covariance numerator). -/
def covl (l : List (ℚ × ℚ)) : ℚ :=
  (l.map (fun p =>
    (p.1 - lmean (l.map Prod.fst)) * (p.2 - lmean (l.map Prod.snd)))).sum

/-- pandas `nancorr` on one pair of columns, given the pairwise-complete
observations: NaN when there is no observation or either sum of squares
is zero (this covers a single observation and a constant column);
otherwise the canonical form of `cov / sqrt (ssx * ssy)`. -/
def pearson (l : List (ℚ × ℚ)) : CorrVal :=
  if l = [] then CorrVal.nan
  else if ssq (l.map Prod.fst) * ssq (l.map Prod.snd) = 0 then CorrVal.nan
  else
    CorrVal.r (if 0 < covl l then 1 else if covl l < 0 then -1 else 0)
      ((covl l) ^ 2 / (ssq (l.map Prod.fst) * ssq (l.map Prod.snd)))

/-- Pairwise-complete observations of two row-aligned columns: the rows
where both values are non-missing. -/
def pairedRows (xs ys : List (Option ℚ)) : List (ℚ × ℚ) :=
  (xs.zip ys).filterMap (fun p =>
    match p with
    | (some a, some b) => some (a, b)
    | _ => none)

/-- `df[numeric_cols].corr()` (app.py:295): the square matrix of pairwise
Pearson coefficients over the numeric columns. -/
def corrMatrix (cols : List Column) : List (List CorrVal) :=
  cols.map (fun ci =>
    cols.map (fun cj =>
      pearson (pairedRows (ci.cells.map cellVal) (cj.cells.map cellVal))))

/-- Primary dropdown resolution (app.py:253): keep a selection that names
a numeric column, otherwise fall back to the first numeric column
(`none` when there is no numeric column). -/
def resolvePrimary (ncols : List String) (c1 : Option String) : Option String :=
  match c1 with
  | some s => if s ∈ ncols then some s else ncols.head?
  | none => ncols.head?

/-- Secondary dropdown resolution (app.py:259): keep a selection that
names a numeric column, otherwise fall back to the second numeric column
when it exists, else unset. -/
def resolveSecondary (ncols : List String) (c2 : Option String) : Option String :=
  match c2 with
  | some s => if s ∈ ncols then some s else ncols.get? 1
  | none => ncols.get? 1

/-- Count with multiplicity of each distinct value, pandas `value_counts`
order: sorted by descending count. -/
def insertByCount (x : ℚ × Nat) : List (ℚ × Nat) → List (ℚ × Nat)
  | [] => [x]
  | y :: ys => if y.2 < x.2 then x :: y :: ys else y :: insertByCount x ys

/-- `Series.value_counts()`: distinct non-NaN values with their counts,
ordered by descending count. -/
def valueCounts (l : List ℚ) : List (ℚ × Nat) :=
  (l.dedup.map (fun v => (v, l.count v))).foldr insertByCount []

/-- The data content of one figure. -/
inductive Fig
  | noData
  | hist (col : String) (nbins : Nat) (vals : List (Option ℚ))
  | pie (col : String) (counts : List (ℚ × Nat))
  | line (col : String) (vals : List (Option ℚ))
  | scatter (xcol ycol : String) (pts : List (Option ℚ × Option ℚ))
  | noScatter
  | heat (cols : List String) (mat : List (List CorrVal))
  | noHeat
deriving DecidableEq, Repr

/-- The five figures returned by `update_charts`. -/
structure Charts where
  fig1 : Fig
  fig2 : Fig
  fig3 : Fig
  fig4 : Fig
  fig5 : Fig
deriving DecidableEq, Repr

/-- The five "No data" placeholder figures. -/
def emptyCharts : Charts :=
  ⟨Fig.noData, Fig.noData, Fig.noData, Fig.noData, Fig.noData⟩

/-- `update_charts` (app.py:239): resolve the selections, then build the
histogram (20-bin request), pie of value counts, line over the index,
scatter of primary against secondary (placeholder when no secondary),
and correlation heatmap (placeholder below two numeric columns). -/
def update_charts (data : Option Table) (col1 col2 : Option String) : Charts :=
  match data with
  | none => emptyCharts
  | some df =>
      let ncols := numericNames df
      match resolvePrimary ncols col1 with
      | none => emptyCharts
      | some c1 =>
          let c2r := resolveSecondary ncols col2
          { fig1 := Fig.hist c1 20 (colValues df c1)
            fig2 := Fig.pie c1 (valueCounts ((colValues df c1).filterMap id))
            fig3 := Fig.line c1 (colValues df c1)
            fig4 :=
              match c2r with
              | some c2v =>
                  Fig.scatter c1 c2v ((colValues df c1).zip (colValues df c2v))
              | none => Fig.noScatter
            fig5 :=
              if 2 ≤ ncols.length then
                Fig.heat ncols (corrMatrix (numericColumns df))
              else Fig.noHeat }

/-- The dashboard's session state: the store, the surfaced status, the two
dropdown values, and the rendered outputs of the three downstream
callbacks. -/
structure AppState where
  stored : Option Table
  status : UploadStatus
  sel1 : Option String
  sel2 : Option String
  options : List String
  kpis : List String
  charts : Charts
deriving DecidableEq, Repr

/-- Dropdown options after a store change (`populate_numeric_dropdowns`,
app.py:188). -/
def numericOptions (d : Option Table) : List String :=
  match d with
  | none => []
  | some df => numericNames df

/-- The two input events of the pipeline. -/
inductive Event
  | upload (contents : Option String) (filename : String)
  | select (c1 c2 : Option String)

/-- The Dash dependency graph as a step function. An upload runs
`store_csv` and re-fires every callback whose input is the store
(options, KPIs, charts); a dropdown change re-fires only `update_charts`,
whose inputs include the dropdown values. -/
def step (s : AppState) : Event → AppState
  | Event.upload contents filename =>
      let out := store_csv contents filename
      { stored := out.1
        status := out.2
        sel1 := s.sel1
        sel2 := s.sel2
        options := numericOptions out.1
        kpis := update_kpis out.1
        charts := update_charts out.1 s.sel1 s.sel2 }
  | Event.select c1 c2 =>
      { s with sel1 := c1, sel2 := c2, charts := update_charts s.stored c1 c2 }

/-- `store_csv` clears the store on every branch whose status is an
error/warning alert. -/
lemma store_csv_error_clears (contents : Option String) (filename : String)
    (h : ((store_csv contents filename).2).isError = true) :
    (store_csv contents filename).1 = none := by
  cases contents with
  | none => simp [store_csv, UploadStatus.isError] at h
  | some raw =>
      by_cases hc : indicatesCSV filename
      · cases hr : read_csv raw with
        | error e => simp [store_csv, hc, hr]
        | ok df =>
            by_cases he : df.isEmptyFrame
            · simp [store_csv, hc, hr, he]
            · exfalso
              simp [store_csv, hc, hr, he, UploadStatus.isError] at h
      · simp [store_csv, hc]

/-- Claim C4: a selection-change event recomputes only the aggregate
bundle: in any loaded state, the KPI strings, the numeric-column option
list, the stored table and the status message are unchanged, and only the
five figures are recomputed from the new selection. -/
theorem claim4_selection_frame (s : AppState) (c1 c2 : Option String)
    (h : s.stored.isSome = true) :
    (step s (Event.select c1 c2)).kpis = s.kpis ∧
    (step s (Event.select c1 c2)).options = s.options ∧
    (step s (Event.select c1 c2)).stored = s.stored ∧
    (step s (Event.select c1 c2)).status = s.status ∧
    (step s (Event.select c1 c2)).charts = update_charts s.stored c1 c2 := by
  simp [step]

/-- Witness for C4 at a concrete loaded state. -/
theorem claim4_selection_frame_witness :
    (step ⟨some ⟨[⟨"a", [Cell.num 1]⟩]⟩, UploadStatus.success, none, none,
        ["a"], ["k"], emptyCharts⟩ (Event.select (some "a") none)).kpis = ["k"] ∧
    (step ⟨some ⟨[⟨"a", [Cell.num 1]⟩]⟩, UploadStatus.success, none, none,
        ["a"], ["k"], emptyCharts⟩ (Event.select (some "a") none)).options = ["a"] := by
  have h := claim4_selection_frame
    ⟨some ⟨[⟨"a", [Cell.num 1]⟩]⟩, UploadStatus.success, none, none,
      ["a"], ["k"], emptyCharts⟩ (some "a") none (by decide)
  exact ⟨h.1, h.2.1⟩

/-- Claim C5: every failing ingestion (bad extension, parse failure, or
empty frame) clears the stored table and surfaces the error, whatever
table was loaded before: the store never keeps prior data next to a
fresh ingestion error. -/
theorem claim5_failure_clears_store (s : AppState) (contents : Option String)
    (filename : String)
    (h : ((store_csv contents filename).2).isError = true) :
    (step s (Event.upload contents filename)).stored = none ∧
    (step s (Event.upload contents filename)).status = (store_csv contents filename).2 ∧
    ((step s (Event.upload contents filename)).status).isError = true := by
  refine ⟨?_, ?_, ?_⟩
  · simpa [step] using store_csv_error_clears contents filename h
  · simp [step]
  · simpa [step] using h

/-- Witness for C5: a bad-extension upload over a state that holds a
previously loaded table. -/
theorem claim5_failure_clears_store_witness :
    (step ⟨some ⟨[⟨"a", [Cell.num 1]⟩]⟩, UploadStatus.success, none, none,
        ["a"], ["k"], emptyCharts⟩
      (Event.upload (some "b\n2") "notes.doc")).stored = none ∧
    (step ⟨some ⟨[⟨"a", [Cell.num 1]⟩]⟩, UploadStatus.success, none, none,
        ["a"], ["k"], emptyCharts⟩
      (Event.upload (some "b\n2") "notes.doc")).status = UploadStatus.errBadExt := by
  have h := claim5_failure_clears_store
    ⟨some ⟨[⟨"a", [Cell.num 1]⟩]⟩, UploadStatus.success, none, none,
      ["a"], ["k"], emptyCharts⟩ (some "b\n2") "notes.doc" (by decide)
  refine ⟨h.1, ?_⟩
  rw [h.2.1]
  decide

/-- Claim C7: a filename that does not contain `csv` (lower-cased) is
rejected with the bad-extension alert whatever the uploaded bytes are —
the outcome does not depend on the contents, so no decode or parse is
attempted; and under a `csv` filename the bad-extension alert is never
produced. -/
theorem claim7_bad_extension (c : String) (c' : Option String) (f : String) :
    (indicatesCSV f = false →
      store_csv (some c) f = (none, UploadStatus.errBadExt)) ∧
    (indicatesCSV f = true →
      (store_csv c' f).2 ≠ UploadStatus.errBadExt) := by
  constructor
  · intro h
    simp [store_csv, h]
  · intro h
    cases c' with
    | none => simp [store_csv]
    | some raw =>
        cases hr : read_csv raw with
        | error e => simp [store_csv, h, hr]
        | ok df =>
            by_cases he : df.isEmptyFrame <;> simp [store_csv, h, hr, he]

/-- Witness for C7: a `.txt` upload is rejected as bad extension with the
same contents that a `.csv` upload accepts. -/
theorem claim7_bad_extension_witness :
    store_csv (some "a,b\n1,2") "data.txt" = (none, UploadStatus.errBadExt) ∧
    (store_csv (some "a,b\n1,2") "data.csv").2 ≠ UploadStatus.errBadExt := by
  exact ⟨(claim7_bad_extension "a,b\n1,2" (some "a,b\n1,2") "data.txt").1 (by decide),
    (claim7_bad_extension "a,b\n1,2" (some "a,b\n1,2") "data.csv").2 (by decide)⟩

/-- Claim C8: a raw input that parses successfully but has zero data rows
is rejected with the empty-table alert and nothing is stored, so the
pipeline stays in (or returns to) the empty state. -/
theorem claim8_empty_table (s : AppState) (raw filename : String) (df : Table)
    (hf : indicatesCSV filename = true)
    (hp : read_csv raw = Except.ok df)
    (hr : df.numRows = 0) :
    store_csv (some raw) filename = (none, UploadStatus.errEmpty) ∧
    (step s (Event.upload (some raw) filename)).stored = none := by
  have he : df.isEmptyFrame = true := by
    simp [Table.isEmptyFrame, hr]
  have h1 : store_csv (some raw) filename = (none, UploadStatus.errEmpty) := by
    simp [store_csv, hf, hp, he]
  exact ⟨h1, by simp [step, h1]⟩

/-- Witness for C8: a header-only CSV (`"a,b"`) parses to a two-column,
zero-row frame and is rejected as empty. -/
theorem claim8_empty_table_witness :
    store_csv (some "a,b") "t.csv" = (none, UploadStatus.errEmpty) := by
  exact (claim8_empty_table
    ⟨none, UploadStatus.blank, none, none, [], ["-", "-", "-", "-"], emptyCharts⟩
    "a,b" "t.csv" ⟨[⟨"a", []⟩, ⟨"b", []⟩]⟩ (by decide) (by rfl) (by decide)).1

/-- The KPI list entry at a position below 4 is the code's per-slot
string: the formatted mean of the i-th numeric column when it exists,
else the `"-"` placeholder. -/
lemma update_kpis_getD (df : Table) (i : Nat) (hi : i < 4) :
    (update_kpis (some df)).getD i "" =
      (match (numericColumns df).get? i with
       | some c => kpiEntry c
       | none => "-") := by
  match i, hi with
  | 0, _ => rfl
  | 1, _ => rfl
  | 2, _ => rfl
  | 3, _ => rfl

/-- Claim C1: the KPI computation always returns exactly 4 entries; entry
i below the numeric-column count shows the i-th numeric column's name and
its mean formatted to two decimals, and every entry at or beyond the
numeric-column count is the `"-"` placeholder (not zero). -/
theorem claim1_kpi_shape (df : Table) :
    (update_kpis (some df)).length = 4 ∧
    (∀ i c m, i < 4 → (numericColumns df).get? i = some c →
      colMean c.cells = some m →
      (update_kpis (some df)).getD i "" = c.name ++ " Avg: " ++ fmt2 m) ∧
    (∀ i, i < 4 → (numericColumns df).length ≤ i →
      (update_kpis (some df)).getD i "" = "-") := by
  refine ⟨rfl, ?_, ?_⟩
  · intro i c m hi hc hm
    rw [update_kpis_getD df i hi, hc]
    simp [kpiEntry, hm]
  · intro i hi hlen
    rw [update_kpis_getD df i hi, List.get?_eq_none.mpr hlen]

/-- Witness for C1 on a one-numeric-column table. -/
theorem claim1_kpi_shape_witness :
    (update_kpis (some ⟨[⟨"a", [Cell.num 1]⟩]⟩)).length = 4 ∧
    (update_kpis (some ⟨[⟨"a", [Cell.num 1]⟩]⟩)).getD 0 "" =
      "a" ++ " Avg: " ++ fmt2 1 ∧
    (update_kpis (some ⟨[⟨"a", [Cell.num 1]⟩]⟩)).getD 1 "" = "-" := by
  have h := claim1_kpi_shape ⟨[⟨"a", [Cell.num 1]⟩]⟩
  refine ⟨h.1, ?_, h.2.2 1 (by decide) (by decide)⟩
  exact h.2.1 0 ⟨"a", [Cell.num 1]⟩ 1 (by decide) (by decide)
    (by norm_num [colMean, cellVal, List.filterMap_cons])

/-- Does the selection name a numeric column of the current schema? -/
def isValidSel (ncols : List String) (c : Option String) : Bool :=
  match c with
  | some s => decide (s ∈ ncols)
  | none => false

/-- Claim C2: selection resolution, evaluated on every `update_charts`
call, is a pure function of the numeric-column list and the raw
selection: an absent/non-numeric primary falls back to the first numeric
column (and with no numeric column at all every figure is a placeholder);
an absent/non-numeric secondary falls back to the second numeric column
when it exists, else stays unset and the scatter degrades to its
placeholder. -/
theorem claim2_selection_resolution (df : Table) (c1 c2 : Option String) :
    (isValidSel (numericNames df) c1 = false →
      resolvePrimary (numericNames df) c1 = (numericNames df).head?) ∧
    (isValidSel (numericNames df) c1 = true →
      resolvePrimary (numericNames df) c1 = c1) ∧
    (isValidSel (numericNames df) c2 = false →
      resolveSecondary (numericNames df) c2 = (numericNames df).get? 1) ∧
    (isValidSel (numericNames df) c2 = true →
      resolveSecondary (numericNames df) c2 = c2) ∧
    (numericNames df = [] → update_charts (some df) c1 c2 = emptyCharts) ∧
    (resolveSecondary (numericNames df) c2 = none →
      (update_charts (some df) c1 c2).fig4 = Fig.noScatter ∨
      (update_charts (some df) c1 c2).fig4 = Fig.noData) := by
  refine ⟨?_, ?_, ?_, ?_, ?_, ?_⟩
  · intro h
    cases c1 with
    | none => rfl
    | some s =>
        have hs : ¬ s ∈ numericNames df := by simpa [isValidSel] using h
        simp [resolvePrimary, hs]
  · intro h
    cases c1 with
    | none => simp [isValidSel] at h
    | some s =>
        have hs : s ∈ numericNames df := by simpa [isValidSel] using h
        simp [resolvePrimary, hs]
  · intro h
    cases c2 with
    | none => rfl
    | some s =>
        have hs : ¬ s ∈ numericNames df := by simpa [isValidSel] using h
        simp [resolveSecondary, hs]
  · intro h
    cases c2 with
    | none => simp [isValidSel] at h
    | some s =>
        have hs : s ∈ numericNames df := by simpa [isValidSel] using h
        simp [resolveSecondary, hs]
  · intro h
    cases c1 <;> simp [update_charts, h, resolvePrimary]
  · intro h
    cases hp : resolvePrimary (numericNames df) c1 with
    | none =>
        right
        simp [update_charts, hp, emptyCharts]
    | some c =>
        left
        simp [update_charts, hp, h]

/-- Witness for C2: an invalid primary defaults to the first numeric
column, an unset secondary to the second; with no numeric column the
whole bundle is the placeholder set. -/
theorem claim2_selection_resolution_witness :
    resolvePrimary ["a", "b"] (some "z") = some "a" ∧
    resolveSecondary ["a", "b"] none = some "b" ∧
    update_charts (some ⟨[⟨"t", [Cell.text "x"]⟩]⟩) (some "t") none = emptyCharts := by
  have h := claim2_selection_resolution ⟨[⟨"a", [Cell.num 1]⟩, ⟨"b", [Cell.num 2]⟩]⟩
    (some "z") none
  have hn : numericNames ⟨[⟨"a", [Cell.num 1]⟩, ⟨"b", [Cell.num 2]⟩]⟩ = ["a", "b"] := by
    decide
  refine ⟨?_, ?_, ?_⟩
  · have h1 := h.1
    rw [hn] at h1
    simpa using h1 (by decide)
  · have h3 := h.2.2.1
    rw [hn] at h3
    simpa using h3 (by decide)
  · exact (claim2_selection_resolution ⟨[⟨"t", [Cell.text "x"]⟩]⟩
      (some "t") none).2.2.2.2.1 (by decide)

/-- Claim C10: the resolved primary and secondary columns need not be
distinct: when the user picks the second numeric column as primary and
the secondary selection is unset or invalid, the secondary defaults to
that same column and the scatter pairs the column with itself. -/
theorem claim10_secondary_collision (df : Table) (s : String) (c2 : Option String)
    (hs : (numericNames df).get? 1 = some s)
    (hc2 : isValidSel (numericNames df) c2 = false) :
    2 ≤ (numericNames df).length ∧
    resolvePrimary (numericNames df) (some s) = some s ∧
    resolveSecondary (numericNames df) c2 = some s ∧
    (update_charts (some df) (some s) c2).fig4 =
      Fig.scatter s s ((colValues df s).zip (colValues df s)) := by
  have hmem : s ∈ numericNames df := List.get?_mem hs
  have hlen : 2 ≤ (numericNames df).length := by
    by_contra hl
    have hnone : (numericNames df).get? 1 = none := List.get?_eq_none.mpr (by omega)
    rw [hnone] at hs
    cases hs
  have hp : resolvePrimary (numericNames df) (some s) = some s := by
    simp [resolvePrimary, hmem]
  have hsec : resolveSecondary (numericNames df) c2 = some s := by
    cases c2 with
    | none => simpa [resolveSecondary] using hs
    | some t =>
        have ht : ¬ t ∈ numericNames df := by simpa [isValidSel] using hc2
        simpa [resolveSecondary, ht] using hs
  refine ⟨hlen, hp, hsec, ?_⟩
  simp [update_charts, hp, hsec]

/-- Witness for C10: picking `b` (the second numeric column) as primary
with no secondary selection yields a `b`-against-`b` scatter. -/
theorem claim10_secondary_collision_witness :
    (update_charts (some ⟨[⟨"a", [Cell.num 1]⟩, ⟨"b", [Cell.num 2]⟩]⟩)
        (some "b") none).fig4 =
      Fig.scatter "b" "b"
        ((colValues ⟨[⟨"a", [Cell.num 1]⟩, ⟨"b", [Cell.num 2]⟩]⟩ "b").zip
          (colValues ⟨[⟨"a", [Cell.num 1]⟩, ⟨"b", [Cell.num 2]⟩]⟩ "b")) := by
  exact (claim10_secondary_collision ⟨[⟨"a", [Cell.num 1]⟩, ⟨"b", [Cell.num 2]⟩]⟩
    "b" none (by decide) (by decide)).2.2.2

/-- Counterexample to C6 as stated: the single column `a` is numeric
dtype (all cells NaN) and among the first 4, yet its KPI entry is the
formatted NaN string, not the `"-"` placeholder. -/
theorem claim6_nan_counterexample :
    isNumericCol [Cell.missing] = true ∧
    update_kpis (some ⟨[⟨"a", [Cell.missing]⟩]⟩) = ["a Avg: nan", "-", "-", "-"] ∧
    "a Avg: nan" ≠ "-" := by
  exact ⟨by decide, by decide, by decide⟩

/-- Claim C6 as amended: for a numeric column among the first 4 whose
cells are all missing, the KPI entry is the column name with the
formatted NaN mean (pandas `mean()` of an all-NaN series), never the
`"-"` placeholder and never an exception. -/
theorem claim6_allmissing_amended (df : Table) (i : Nat) (c : Column)
    (hi : i < 4)
    (hc : (numericColumns df).get? i = some c)
    (hall : ∀ x ∈ c.cells, x = Cell.missing) :
    (update_kpis (some df)).getD i "" = c.name ++ " Avg: nan" := by
  have hnil : c.cells.filterMap cellVal = [] := by
    rw [List.filterMap_eq_nil_iff]
    intro a ha
    rw [hall a ha]
    rfl
  have hm : colMean c.cells = none := by
    simp [colMean, hnil]
  rw [update_kpis_getD df i hi, hc]
  simp [kpiEntry, hm]

/-- Witness for the amended C6 on an all-missing numeric column. -/
theorem claim6_allmissing_amended_witness :
    (update_kpis (some ⟨[⟨"a", [Cell.missing]⟩]⟩)).getD 0 "" = "a" ++ " Avg: nan" := by
  exact claim6_allmissing_amended ⟨[⟨"a", [Cell.missing]⟩]⟩ 0 ⟨"a", [Cell.missing]⟩
    (by decide) (by decide) (by decide)

/-- Does the list hold two distinct values? (Nonzero variance test.) -/
def hasTwoDistinct (l : List ℚ) : Bool :=
  l.any (fun a => l.any (fun b => a != b))

/-- `hasTwoDistinct` is false exactly when all values coincide. -/
lemma hasTwoDistinct_eq_false_iff (l : List ℚ) :
    hasTwoDistinct l = false ↔ ∀ a ∈ l, ∀ b ∈ l, a = b := by
  simp [hasTwoDistinct]

/-- Pairing a column with itself keeps exactly its valid values, doubled. -/
lemma pairedRows_self (v : List (Option ℚ)) :
    pairedRows v v = (v.filterMap id).map (fun a => (a, a)) := by
  induction v with
  | nil => rfl
  | cons x xs ih =>
      cases x with
      | none => simpa [pairedRows, List.filterMap_cons] using ih
      | some a => simpa [pairedRows, List.filterMap_cons] using ih

/-- Swapping the two columns swaps each pairwise-complete observation. -/
lemma pairedRows_swap (xs ys : List (Option ℚ)) :
    pairedRows ys xs = (pairedRows xs ys).map Prod.swap := by
  induction xs generalizing ys with
  | nil => cases ys <;> rfl
  | cons x xs ih =>
      cases ys with
      | nil => rfl
      | cons y ys =>
          cases x <;> cases y <;>
            simpa [pairedRows, List.filterMap_cons] using ih ys

/-- First components of swapped pairs are the original second components. -/
lemma map_fst_swap (l : List (ℚ × ℚ)) :
    (l.map Prod.swap).map Prod.fst = l.map Prod.snd := by
  simp [List.map_map]

/-- Second components of swapped pairs are the original first components. -/
lemma map_snd_swap (l : List (ℚ × ℚ)) :
    (l.map Prod.swap).map Prod.snd = l.map Prod.fst := by
  simp [List.map_map]

/-- The covariance numerator is symmetric in the two coordinates. -/
lemma covl_swap (l : List (ℚ × ℚ)) : covl (l.map Prod.swap) = covl l := by
  unfold covl
  rw [map_fst_swap, map_snd_swap, List.map_map]
  congr 1
  apply List.map_congr_left
  intro p _
  simp [Function.comp, mul_comm]

/-- The Pearson coefficient is symmetric in the two coordinates. -/
lemma pearson_swap (l : List (ℚ × ℚ)) : pearson (l.map Prod.swap) = pearson l := by
  unfold pearson
  rw [map_fst_swap, map_snd_swap, covl_swap]
  by_cases h : l = []
  · simp [h]
  · rw [if_neg (by simpa using h), if_neg h,
      mul_comm (ssq (l.map Prod.snd)) (ssq (l.map Prod.fst))]

/-- Pearson over the pairwise-complete rows of two columns is symmetric. -/
lemma pearson_paired_symm (xs ys : List (Option ℚ)) :
    pearson (pairedRows xs ys) = pearson (pairedRows ys xs) := by
  rw [pairedRows_swap xs ys, pearson_swap]

/-- A sum of squared deviations is nonnegative. -/
lemma sumsq_nonneg (l : List ℚ) (m : ℚ) :
    0 ≤ (l.map (fun a => (a - m) ^ 2)).sum := by
  apply List.sum_nonneg
  intro x hx
  obtain ⟨a, _, rfl⟩ := List.mem_map.mp hx
  exact sq_nonneg _

/-- The sum of squared deviations from the mean is nonnegative. -/
lemma ssq_nonneg (l : List ℚ) : 0 ≤ ssq l := sumsq_nonneg l (lmean l)

/-- A vanishing sum of squared deviations forces every value to the
center. -/
lemma all_eq_of_sumsq_zero (l : List ℚ) (m : ℚ)
    (h : (l.map (fun a => (a - m) ^ 2)).sum = 0) : ∀ a ∈ l, a = m := by
  induction l with
  | nil => simp
  | cons x xs ih =>
      have hx2 : (0 : ℚ) ≤ (x - m) ^ 2 := sq_nonneg _
      have hs : (0 : ℚ) ≤ (xs.map (fun a => (a - m) ^ 2)).sum := sumsq_nonneg xs m
      rw [List.map_cons, List.sum_cons] at h
      have h1 : (x - m) ^ 2 = 0 := by linarith
      have h2 : (xs.map (fun a => (a - m) ^ 2)).sum = 0 := by linarith
      intro a ha
      rcases List.mem_cons.mp ha with rfl | ha
      · have := sq_eq_zero_iff.mp h1
        linarith [this]
      · exact ih h2 a ha

/-- The mean of a nonempty constant list is that constant. -/
lemma mean_const (l : List ℚ) (c : ℚ) (hne : l ≠ []) (h : ∀ a ∈ l, a = c) :
    lmean l = c := by
  have hs : l.sum = (l.length : ℚ) * c := by
    induction l with
    | nil => simp
    | cons x xs ih =>
        have hx : x = c := h x (List.mem_cons_self x xs)
        by_cases hxs : xs = []
        · subst hxs
          simp [hx]
        · have := ih hxs (fun a ha => h a (List.mem_cons_of_mem x ha))
          simp only [List.sum_cons, List.length_cons, this, hx]
          push_cast
          ring
  have hlen : (l.length : ℚ) ≠ 0 := by
    have h0 : l.length ≠ 0 := fun h0 => hne (List.eq_nil_of_length_eq_zero h0)
    exact_mod_cast h0
  rw [lmean, hs, mul_comm, mul_div_assoc, div_self hlen, mul_one]

/-- A list all of whose values equal its mean has zero sum of squared
deviations. -/
lemma ssq_zero_of_const (l : List ℚ) (h : ∀ a ∈ l, a = lmean l) : ssq l = 0 := by
  unfold ssq
  apply List.sum_eq_zero
  intro x hx
  obtain ⟨a, ha, rfl⟩ := List.mem_map.mp hx
  rw [h a ha]
  ring

/-- Pearson of a column against itself: exactly 1 when the values include
two distinct entries (so the variance is nonzero), NaN otherwise — this
covers the empty column, a single observation, and a constant column. -/
lemma pearson_dup (w : List ℚ) :
    pearson (w.map (fun a => (a, a))) =
      if hasTwoDistinct w = true then CorrVal.r 1 1 else CorrVal.nan := by
  have hfst : (w.map (fun a => ((a : ℚ), a))).map Prod.fst = w := by
    simp [List.map_map, Function.comp_def]
  have hsnd : (w.map (fun a => ((a : ℚ), a))).map Prod.snd = w := by
    simp [List.map_map, Function.comp_def]
  have hcov : covl (w.map (fun a => (a, a))) = ssq w := by
    unfold covl ssq
    rw [hfst, hsnd, List.map_map]
    congr 1
    apply List.map_congr_left
    intro a _
    simp [Function.comp]
    ring
  by_cases hw : w = []
  · subst hw
    simp [pearson, hasTwoDistinct]
  · have hne : w.map (fun a => ((a : ℚ), a)) ≠ [] := by simpa using hw
    by_cases hz : ssq w = 0
    · have htd : hasTwoDistinct w = false := by
        rw [hasTwoDistinct_eq_false_iff]
        have hall : ∀ a ∈ w, a = lmean w :=
          all_eq_of_sumsq_zero w (lmean w) hz
        intro a ha b hb
        rw [hall a ha, hall b hb]
      rw [pearson, if_neg hne, hfst, hsnd, if_pos (by rw [hz]; ring), htd]
      simp
    · have htd : hasTwoDistinct w = true := by
        by_contra hf
        have hall : ∀ a ∈ w, ∀ b ∈ w, a = b :=
          (hasTwoDistinct_eq_false_iff w).mp (Bool.eq_false_iff.mpr hf)
        rcases w with _ | ⟨c, cs⟩
        · exact hw rfl
        · have hc : ∀ a ∈ c :: cs, a = c := fun a ha =>
            hall a ha c (List.mem_cons_self c cs)
          have hm : lmean (c :: cs) = c := mean_const _ c (by simp) hc
          exact hz (ssq_zero_of_const _ (fun a ha => by rw [hc a ha, hm]))
      have hpos : 0 < ssq w := lt_of_le_of_ne (ssq_nonneg w) (Ne.symm hz)
      have hzz : ssq w * ssq w ≠ 0 := mul_ne_zero hz hz
      rw [pearson, if_neg hne, hfst, hsnd, if_neg hzz, hcov, htd, if_pos rfl]
      congr 1
      · rw [if_pos hpos]
      · rw [pow_two, div_self hzz]

/-- With a nonempty numeric-column list the primary selection always
resolves. -/
lemma resolvePrimary_ne_none (ncols : List String) (c1 : Option String)
    (h : ncols ≠ []) : ∃ c, resolvePrimary ncols c1 = some c := by
  cases c1 with
  | none =>
      cases ncols with
      | nil => exact absurd rfl h
      | cons a l => exact ⟨a, rfl⟩
  | some s =>
      by_cases hs : s ∈ ncols
      · exact ⟨s, by simp [resolvePrimary, hs]⟩
      · cases ncols with
        | nil => exact absurd rfl h
        | cons a l => exact ⟨a, by simp [resolvePrimary, hs]⟩

/-- Cell (i, j) of the correlation matrix is the Pearson coefficient of
the pairwise-complete rows of columns i and j. -/
lemma corrMatrix_entry (cols : List Column) (i j : Nat) (ci cj : Column)
    (hi : cols.get? i = some ci) (hj : cols.get? j = some cj) :
    ((corrMatrix cols).getD i []).getD j CorrVal.nan =
      pearson (pairedRows (ci.cells.map cellVal) (cj.cells.map cellVal)) := by
  have h1 : (corrMatrix cols).getD i [] =
      cols.map (fun cj' =>
        pearson (pairedRows (ci.cells.map cellVal) (cj'.cells.map cellVal))) := by
    unfold corrMatrix
    rw [List.getD_eq_get?, List.get?_map, hi]
    rfl
  rw [h1, List.getD_eq_get?, List.get?_map, hj]
  rfl

/-- Claim C3 as amended: the heatmap is produced exactly when the schema
has at least 2 numeric columns (placeholder otherwise); the matrix is
square over all numeric columns, each cell is the Pearson coefficient of
the pairwise-complete rows of its two columns, and the matrix is
symmetric. The diagonal is 1 whenever the column has two distinct valid
values, and NaN when it has fewer than 2 valid values OR when all its
valid values are equal (zero variance) — the latter case is what the
original claim misses. -/
theorem claim3_correlation_amended (df : Table) (c1 c2 : Option String) :
    (2 ≤ (numericNames df).length →
      (update_charts (some df) c1 c2).fig5 =
        Fig.heat (numericNames df) (corrMatrix (numericColumns df))) ∧
    ((numericNames df).length < 2 →
      (update_charts (some df) c1 c2).fig5 = Fig.noHeat ∨
      (update_charts (some df) c1 c2).fig5 = Fig.noData) ∧
    (corrMatrix (numericColumns df)).length = (numericColumns df).length ∧
    (∀ row ∈ corrMatrix (numericColumns df), row.length = (numericColumns df).length) ∧
    (∀ i j ci cj, (numericColumns df).get? i = some ci →
      (numericColumns df).get? j = some cj →
      ((corrMatrix (numericColumns df)).getD i []).getD j CorrVal.nan =
        pearson (pairedRows (ci.cells.map cellVal) (cj.cells.map cellVal)) ∧
      ((corrMatrix (numericColumns df)).getD i []).getD j CorrVal.nan =
        ((corrMatrix (numericColumns df)).getD j []).getD i CorrVal.nan) ∧
    (∀ i ci, (numericColumns df).get? i = some ci →
      ((corrMatrix (numericColumns df)).getD i []).getD i CorrVal.nan =
        (if hasTwoDistinct (ci.cells.filterMap cellVal) = true then CorrVal.r 1 1
         else CorrVal.nan)) := by
  refine ⟨?_, ?_, by simp [corrMatrix], ?_, ?_, ?_⟩
  · intro h2
    have hne : numericNames df ≠ [] := by
      intro h0
      rw [h0] at h2
      simp at h2
    obtain ⟨c, hc⟩ := resolvePrimary_ne_none (numericNames df) c1 hne
    simp [update_charts, hc, h2]
  · intro hlt
    cases hp : resolvePrimary (numericNames df) c1 with
    | none =>
        right
        simp [update_charts, hp, emptyCharts]
    | some c =>
        left
        have hn : ¬ 2 ≤ (numericNames df).length := by omega
        simp [update_charts, hp, hn]
  · intro row hrow
    simp only [corrMatrix, List.mem_map] at hrow
    obtain ⟨ci, _, rfl⟩ := hrow
    simp
  · intro i j ci cj hi hj
    refine ⟨corrMatrix_entry _ i j ci cj hi hj, ?_⟩
    rw [corrMatrix_entry _ i j ci cj hi hj, corrMatrix_entry _ j i cj ci hj hi,
      pearson_paired_symm]
  · intro i ci hi
    rw [corrMatrix_entry _ i i ci ci hi hi, pairedRows_self, pearson_dup,
      List.filterMap_map]
    simp [Function.id_comp]

/-- Witness for the amended C3 on a two-numeric-column table: the heatmap
is produced and the matrix is symmetric across the (0, 1) cell. -/
theorem claim3_correlation_amended_witness :
    (update_charts (some ⟨[⟨"a", [Cell.num 1, Cell.num 2]⟩,
        ⟨"b", [Cell.num 2, Cell.num 1]⟩]⟩) none none).fig5 =
      Fig.heat (numericNames ⟨[⟨"a", [Cell.num 1, Cell.num 2]⟩,
        ⟨"b", [Cell.num 2, Cell.num 1]⟩]⟩)
        (corrMatrix (numericColumns ⟨[⟨"a", [Cell.num 1, Cell.num 2]⟩,
          ⟨"b", [Cell.num 2, Cell.num 1]⟩]⟩)) ∧
    ((corrMatrix (numericColumns ⟨[⟨"a", [Cell.num 1, Cell.num 2]⟩,
        ⟨"b", [Cell.num 2, Cell.num 1]⟩]⟩)).getD 0 []).getD 1 CorrVal.nan =
      ((corrMatrix (numericColumns ⟨[⟨"a", [Cell.num 1, Cell.num 2]⟩,
        ⟨"b", [Cell.num 2, Cell.num 1]⟩]⟩)).getD 1 []).getD 0 CorrVal.nan := by
  have h := claim3_correlation_amended ⟨[⟨"a", [Cell.num 1, Cell.num 2]⟩,
    ⟨"b", [Cell.num 2, Cell.num 1]⟩]⟩ none none
  exact ⟨h.1 (by decide),
    (h.2.2.2.2.1 0 1 ⟨"a", [Cell.num 1, Cell.num 2]⟩ ⟨"b", [Cell.num 2, Cell.num 1]⟩
      (by decide) (by decide)).2⟩

/-- Counterexample to C3 as stated: with columns `a = [1, 1]` and
`b = [1, 2]` the heatmap is produced (2 numeric columns) and column `a`
has 2 valid values, yet the diagonal cell (a, a) is NaN — pandas `corr`
divides by a zero standard deviation on a constant column — where the
claim requires 1.0. -/
theorem claim3_diagonal_counterexample :
    2 ≤ (numericNames ⟨[⟨"a", [Cell.num 1, Cell.num 1]⟩,
        ⟨"b", [Cell.num 1, Cell.num 2]⟩]⟩).length ∧
    (update_charts (some ⟨[⟨"a", [Cell.num 1, Cell.num 1]⟩,
        ⟨"b", [Cell.num 1, Cell.num 2]⟩]⟩) none none).fig5 =
      Fig.heat ["a", "b"]
        (corrMatrix (numericColumns ⟨[⟨"a", [Cell.num 1, Cell.num 1]⟩,
          ⟨"b", [Cell.num 1, Cell.num 2]⟩]⟩)) ∧
    ([Cell.num 1, Cell.num 1].filterMap cellVal).length = 2 ∧
    ((corrMatrix (numericColumns ⟨[⟨"a", [Cell.num 1, Cell.num 1]⟩,
        ⟨"b", [Cell.num 1, Cell.num 2]⟩]⟩)).getD 0 []).getD 0 CorrVal.nan =
      CorrVal.nan ∧
    CorrVal.nan ≠ CorrVal.r 1 1 := by
  refine ⟨by decide, ?_, by decide, ?_, by decide⟩
  · have hc : resolvePrimary ["a", "b"] none = some "a" := by decide
    have hn : numericNames ⟨[⟨"a", [Cell.num 1, Cell.num 1]⟩,
        ⟨"b", [Cell.num 1, Cell.num 2]⟩]⟩ = ["a", "b"] := by decide
    simp [update_charts, hn, hc]
  · rw [corrMatrix_entry _ 0 0 ⟨"a", [Cell.num 1, Cell.num 1]⟩
      ⟨"a", [Cell.num 1, Cell.num 1]⟩ (by decide) (by decide),
      pairedRows_self, pearson_dup]
    have ht : hasTwoDistinct (([Cell.num 1, Cell.num 1].map cellVal).filterMap id)
        = false := by decide
    rw [ht]
    simp
